import Mathlib

/-!
Verification of the qfix quota ledger and fit-seeking generation loop.

The definitions below are a shallow embedding of `src/lib/serverRateLimit.ts`
and `src/app/api/tailor/route.ts`.  Firestore state for a single user is
modelled as `Option UserDoc` (absent document = `none`); the current UTC
calendar day and the wall clock are passed as explicit parameters, since the
source reads them from the ambient clock.  Firestore `runTransaction` gives
the read-modify-write serializable semantics, so each transaction is one
atomic state transition; concurrent calls are modelled as an arbitrary
serialization of those transitions.
-/

/-- One user document in the `users` collection.  `lastConversion` and
`updatedAt` are audit timestamps (modelled as `Option Nat`, set from the
clock value passed to the operation). -/
structure UserDoc where
  isSpecial : Bool
  lastConversionDate : Option String
  conversionsToday : Nat
  lastConversion : Option Nat
  updatedAt : Option Nat
  deriving Repr, DecidableEq

/-- The result object of `checkAndReserveConversion` as returned to the
caller (the internal `shouldRecord` field is dropped by the source before
returning, and is constant `false` in every branch). -/
structure ReserveResult where
  allowed : Bool
  reason : Option String
  remaining : Option Int
  deriving Repr, DecidableEq

/-- The denial message of the reserve and status operations. -/
def dailyLimitReason : String :=
  "You have reached your daily limit of 1 conversion. Please try again tomorrow."

/-- Shallow embedding of `checkAndReserveConversion` from
`src/lib/serverRateLimit.ts` (lines 86-144).  `today` is the UTC calendar
day string, `now` the clock value used for the audit timestamps, `db` the
user document.  Returns the result together with the post-transaction
document.  The `transaction.set` with `merge: true` keeps absent fields of
an existing document; on a missing document it creates one with the given
fields (defaults for the rest). -/
def checkAndReserveConversion (today : String) (now : Nat) (db : Option UserDoc) :
    ReserveResult × Option UserDoc :=
  if (db.map fun u => u.isSpecial).getD false then
    ({ allowed := true, reason := none, remaining := some (-1) }, db)
  else
    let lastConversionDate : Option String := db.bind fun u => u.lastConversionDate
    let conversionsToday : Nat := (db.map fun u => u.conversionsToday).getD 0
    if lastConversionDate = some today then
      if 1 ≤ conversionsToday then
        ({ allowed := false, reason := some dailyLimitReason, remaining := some 0 }, db)
      else
        ({ allowed := true, reason := none, remaining := some 0 },
          db.map fun u =>
            { u with conversionsToday := conversionsToday + 1, lastConversion := some now })
    else
      let base := db.getD
        { isSpecial := false, lastConversionDate := none, conversionsToday := 0,
          lastConversion := none, updatedAt := none }
      ({ allowed := true, reason := none, remaining := some 0 },
        some { base with
                 lastConversionDate := some today, conversionsToday := 1,
                 lastConversion := some now, updatedAt := some now })

/-- A sequence of reserve calls for the same user on the same UTC day, one
after the other (the serialization produced by the atomic Firestore
transaction).  `times` carries one clock value per call. -/
def runReserves (today : String) (times : List Nat) (db : Option UserDoc) :
    List ReserveResult × Option UserDoc :=
  match times with
  | [] => ([], db)
  | t :: ts =>
    let step := checkAndReserveConversion today t db
    let rest := runReserves today ts step.2
    (step.1 :: rest.1, rest.2)

/-- The result of a denied reserve call. -/
def denyResult : ReserveResult :=
  { allowed := false, reason := some dailyLimitReason, remaining := some 0 }

/-- The result of a reserve call for a special (unlimited) user. -/
def specialResult : ReserveResult :=
  { allowed := true, reason := none, remaining := some (-1) }

/-- The document state in which today's single slot is already consumed by a
non-special user. -/
def slotUsed (today : String) (db : Option UserDoc) : Prop :=
  ∃ u, db = some u ∧ u.isSpecial = false ∧ u.lastConversionDate = some today ∧
    1 ≤ u.conversionsToday

/-- The document created by the first reserve of a fresh user. -/
def freshDoc (today : String) (now : Nat) : UserDoc :=
  { isSpecial := false, lastConversionDate := some today, conversionsToday := 1,
    lastConversion := some now, updatedAt := some now }

/-! ## Fit-seeking generation loop, `src/app/api/tailor/route.ts` -/

/-- `MAX_PAGE_ITERATIONS` from the `POST` handler. -/
def MAX_PAGE_ITERATIONS : Nat := 3

/-- The shorten hint used at loop iteration 1 (moderate). -/
def shortenHintModerate : String :=
  "Your previous output was more than one page. You MUST shorten it: reduce to 2-3 bullet points per role, use more concise phrasing, omit less relevant roles or sections. The resume MUST fit on a single A4 page. Preserve the most important achievements and maintain skills categorization."

/-- The shorten hint used at loop iterations ≥ 2 (aggressive). -/
def shortenHintAggressive : String :=
  "Your output is STILL more than one page. Be more aggressive: at most 2 bullets per role, more concise wording, but still maintain skills categorization. Fit on ONE page only."

/-- The hint selected inside the retry loop: moderate at iteration 1,
aggressive otherwise (the loop only evaluates this at iterations 1 and 2). -/
def shortenHintFor (iteration : Nat) : String :=
  if iteration = 1 then shortenHintModerate else shortenHintAggressive

/-- A rendered PDF: the page count reported by `pdf-parse` (`numpages`) plus
opaque byte content. -/
structure PdfDoc where
  numpages : Nat
  bytes : String
  deriving Repr, DecidableEq

/-- `getPdfPageCount` from the route: reads `numpages` from the parsed
buffer (`?? 0` never fires in the model since `numpages` is total here). -/
def getPdfPageCount (pdf : PdfDoc) : Nat := pdf.numpages

/-- The loop variables live after the fit-seeking loop: the last generated
markup, its rendered document and its page count. -/
structure LoopOut where
  latexCode : String
  pdf : PdfDoc
  pageCount : Nat
  deriving Repr, DecidableEq

/-- Observable trace of one run of the fit-seeking loop: the outcome (or the
propagated render fault), how many `getTailoredResume` and
`latexToPdf`/`getPdfPageCount` invocations happened, and the shorten hint
passed to each generate call in order. -/
structure RunTrace where
  result : Except String LoopOut
  genCalls : Nat
  renderCalls : Nat
  hints : List (Option String)
  deriving Repr

/-- The shorten hint the loop passes to generate call number `i` (call 0 is
the comprehensive first draft with no hint). -/
def hintAt (i : Nat) : Option String :=
  if i = 0 then none else some (shortenHintFor i)

/-- The `for (iteration = 1; iteration < MAX_PAGE_ITERATIONS; iteration++)`
body of the `POST` handler.  `gen i h` is the markup produced by the i-th
`getTailoredResume` call when passed hint `h` (the generative model is
non-deterministic, hence indexed by call number); `render i m` is the i-th
`latexToPdf` + `getPdfPageCount` outcome on markup `m`, `Except.error` being
a thrown render fault.  `remaining = MAX_PAGE_ITERATIONS - iteration` drives
termination. -/
def fitLoopGo (gen : Nat → Option String → String)
    (render : Nat → String → Except String PdfDoc) :
    Nat → Nat → Nat → Nat → List (Option String) → LoopOut → RunTrace
  | 0, _, genCalls, renderCalls, hints, acc =>
    { result := Except.ok acc, genCalls := genCalls, renderCalls := renderCalls,
      hints := hints }
  | remaining + 1, iteration, genCalls, renderCalls, hints, _acc =>
    let shortenHint := shortenHintFor iteration
    let latexCode := gen iteration (some shortenHint)
    match render iteration latexCode with
    | Except.error e =>
      { result := Except.error e, genCalls := genCalls + 1,
        renderCalls := renderCalls + 1, hints := hints ++ [some shortenHint] }
    | Except.ok pdf =>
      let pageCount := getPdfPageCount pdf
      let out : LoopOut := { latexCode := latexCode, pdf := pdf, pageCount := pageCount }
      if pageCount ≤ 1 then
        { result := Except.ok out, genCalls := genCalls + 1,
          renderCalls := renderCalls + 1, hints := hints ++ [some shortenHint] }
      else
        fitLoopGo gen render remaining (iteration + 1) (genCalls + 1) (renderCalls + 1)
          (hints ++ [some shortenHint]) out

/-- The fit-seeking part of the `POST` handler (route lines 616-647): first
attempt without hint, then the shortening loop only if the first PDF exceeds
one page.  A render fault anywhere is not caught inside the loop and becomes
the `Except.error` outcome of the whole run. -/
def fitLoopRun (gen : Nat → Option String → String)
    (render : Nat → String → Except String PdfDoc) : RunTrace :=
  let latexCode := gen 0 none
  match render 0 latexCode with
  | Except.error e =>
    { result := Except.error e, genCalls := 1, renderCalls := 1, hints := [none] }
  | Except.ok pdf =>
    let pageCount := getPdfPageCount pdf
    let out : LoopOut := { latexCode := latexCode, pdf := pdf, pageCount := pageCount }
    if 1 < pageCount then
      fitLoopGo gen render (MAX_PAGE_ITERATIONS - 1) 1 1 1 [none] out
    else
      { result := Except.ok out, genCalls := 1, renderCalls := 1, hints := [none] }

/-- The error message `latexToPdf` throws on any rendering failure. -/
def renderFaultMessage : String :=
  "Failed to convert LaTeX to PDF. Please ensure LaTeX code is valid."

/-- An oracle for C9: first render gives two pages, the second render (loop
iteration 1, not the terminal iteration) faults, a third render would have
reported a single page. -/
def c9Render : Nat → String → Except String PdfDoc := fun i _ =>
  if i = 0 then Except.ok { numpages := 2, bytes := "p0" }
  else if i = 1 then Except.error renderFaultMessage
  else Except.ok { numpages := 1, bytes := "p2" }

/-! ## Error classification and the LLM retry policy (route lines 19-33 and 507-528) -/

/-- A thrown JavaScript error as inspected by `isRateLimitError`: its
`message` and its optional `code` property (already stringified). -/
structure JsError where
  message : String
  code : Option String
  deriving Repr, DecidableEq

/-- Bool test that the first list is an initial segment of the second. -/
def charsStart : List Char → List Char → Bool
  | [], _ => true
  | _ :: _, [] => false
  | p :: ps, c :: cs => p == c && charsStart ps cs

/-- Bool test that `pat` occurs as a contiguous run inside the second list:
the substring containment a literal-word regex alternative tests. -/
def charsSub (pat : List Char) : List Char → Bool
  | [] => charsStart pat []
  | c :: cs => charsStart pat (c :: cs) || charsSub pat cs

/-- Alternatives of the first pattern of `isRateLimitError`. -/
def rateLimitVocab : List String :=
  ["rate limit", "rate_limit", "ratelimit", "quota", "resource exhausted",
   "resource_exhausted", "too many requests", "429"]

/-- Alternatives of the second pattern of `isRateLimitError`. -/
def quotaVocab : List String := ["quota exceeded", "billing", "limit exceeded"]

/-- `isRateLimitError` from the route: code equals "429", or the lowercased
message contains rate-limit/quota vocabulary as a substring, modelled on
the character list (the `/i` flags are redundant on the lowercased
message). -/
def isRateLimitError (e : JsError) : Bool :=
  let lower := e.message.data.map Char.toLower
  let code := e.code.getD ""
  code == "429" || rateLimitVocab.any (fun p => charsSub p.data lower)
    || quotaVocab.any (fun p => charsSub p.data lower)

/-- The HTTP status chosen by the `POST` catch-all handler for a thrown
error: 503 for classified rate limits, 500 otherwise. -/
def errorStatus (e : JsError) : Nat := if isRateLimitError e then 503 else 500

/-- `MAX_LLM_RETRIES` from `getTailoredResume`. -/
def MAX_LLM_RETRIES : Nat := 3

/-- `BACKOFF_MS = [2000, 4000]` — 2s then 4s. -/
def BACKOFF_MS : List Nat := [2000, 4000]

/-- The backoff chosen at a given attempt:
`BACKOFF_MS[attempt] ?? BACKOFF_MS[BACKOFF_MS.length - 1]`. -/
def backoffAt (attempt : Nat) : Nat :=
  (BACKOFF_MS.get? attempt).getD ((BACKOFF_MS.get? (BACKOFF_MS.length - 1)).getD 0)

/-- The error thrown when the retry loop exits with no response (dead code:
the last attempt either breaks with a response or rethrows). -/
def noResponseError : JsError := { message := "LLM did not return a response.", code := none }

/-- Observable trace of the `model.invoke` retry loop inside
`getTailoredResume`: the outcome, the number of invoke attempts made, and
the sleep delays performed in order. -/
structure RetryTrace where
  result : Except JsError String
  attempts : Nat
  delays : List Nat
  deriving Repr

/-- The `for (attempt = 0; attempt < MAX_LLM_RETRIES; attempt++)` retry loop
of `getTailoredResume`.  `invoke i` is the outcome of the i-th
`model.invoke` call.  `fuel = MAX_LLM_RETRIES - attempt` drives termination;
`delays` accumulates the performed sleeps in reverse. -/
def llmRetryGo (invoke : Nat → Except JsError String) :
    Nat → Nat → List Nat → RetryTrace
  | 0, attempt, delays =>
    { result := Except.error noResponseError, attempts := attempt, delays := delays.reverse }
  | fuel + 1, attempt, delays =>
    match invoke attempt with
    | Except.ok r =>
      { result := Except.ok r, attempts := attempt + 1, delays := delays.reverse }
    | Except.error e =>
      let isLastAttempt := attempt == MAX_LLM_RETRIES - 1
      if isRateLimitError e && !isLastAttempt then
        llmRetryGo invoke fuel (attempt + 1) (backoffAt attempt :: delays)
      else
        { result := Except.error e, attempts := attempt + 1, delays := delays.reverse }

/-- One full run of the retry loop, starting at attempt 0. -/
def llmRetry (invoke : Nat → Except JsError String) : RetryTrace :=
  llmRetryGo invoke MAX_LLM_RETRIES 0 []

/-- A classified rate-limit error used in the C8 witness. -/
def rlStubError : JsError := { message := "429 Too Many Requests", code := some "429" }

/-- A non-rate-limit error used in the C8 witness. -/
def fatalStubError : JsError := { message := "boom", code := none }

/-! ## The POST handler's reservation-then-validation prefix (route lines 556-614) -/

/-- One incoming tailor request after form-data extraction, fields holding
the values the handler computes on lines 559-562: `userId`,
`resumeTextInput` and `jobDescription` are the `String(... || "").trim()`
results, `hasFile` says whether a `File` was attached, and `fileText` is the
trimmed text the extractor would produce for it. -/
structure TailorRequest where
  userId : String
  resumeTextInput : String
  jobDescription : String
  hasFile : Bool
  fileText : String
  deriving Repr, DecidableEq

/-- The response the handler prefix settles on: 401, 429, one of the 400
validation rejections, or proceeding into the generation loop with the
resolved resume text and job description. -/
inductive PostOutcome where
  | unauthorized
  | rateLimited (msg : String)
  | missingJobDescription
  | missingResume
  | emptyResumeText
  | proceed (resumeText jobDescription : String)
  deriving Repr, DecidableEq

/-- The `POST` handler up to the start of the generation loop, for the
single user the request names (the quota document is that user's).  Order
is the source's: authentication, then `checkAndReserveConversion`, then
job-description and resume validation.  (For pasted text the source's final
`!resumeText` check cannot fire, since the trimmed input was non-empty.) -/
def postQuotaAndValidation (req : TailorRequest) (today : String) (now : Nat)
    (db : Option UserDoc) : PostOutcome × Option UserDoc :=
  if req.userId = "" then (PostOutcome.unauthorized, db)
  else
    let limitCheck := checkAndReserveConversion today now db
    if !limitCheck.1.allowed then
      (PostOutcome.rateLimited (limitCheck.1.reason.getD "Conversion limit reached."),
        limitCheck.2)
    else if req.jobDescription = "" then (PostOutcome.missingJobDescription, limitCheck.2)
    else if !(req.resumeTextInput = "") then
      (PostOutcome.proceed req.resumeTextInput req.jobDescription, limitCheck.2)
    else if req.hasFile then
      if req.fileText = "" then (PostOutcome.emptyResumeText, limitCheck.2)
      else (PostOutcome.proceed req.fileText req.jobDescription, limitCheck.2)
    else (PostOutcome.missingResume, limitCheck.2)

/-- A non-special user who can still reserve today: not flagged special, and
not both `lastConversionDate = today` and a consumed counter. -/
def quotaAvailable (today : String) (db : Option UserDoc) : Prop :=
  (db.map fun u => u.isSpecial).getD false = false ∧
  ¬ ((db.bind fun u => u.lastConversionDate) = some today ∧
     1 ≤ (db.map fun u => u.conversionsToday).getD 0)

lemma countP_replicate_true {α : Type} (p : α → Bool) (a : α) (h : p a = true) (n : Nat) :
    (List.replicate n a).countP p = n := by
  induction n with
  | zero => simp
  | succ n ih => simp [List.replicate_succ, List.countP_cons, h, ih]

lemma reserve_denies_of_slotUsed (today : String) (now : Nat) (db : Option UserDoc)
    (h : slotUsed today db) :
    checkAndReserveConversion today now db = (denyResult, db) := by
  obtain ⟨u, rfl, hs, hd, hc⟩ := h
  simp [checkAndReserveConversion, denyResult, hs, hd, hc]

lemma runReserves_of_slotUsed (today : String) (times : List Nat) (db : Option UserDoc)
    (h : slotUsed today db) :
    runReserves today times db = (times.map fun _ => denyResult, db) := by
  induction times with
  | nil => simp [runReserves]
  | cons t ts ih =>
    simp [runReserves, reserve_denies_of_slotUsed today t db h, ih]

lemma reserve_fresh (today : String) (now : Nat) :
    checkAndReserveConversion today now none =
      ({ allowed := true, reason := none, remaining := some 0 },
        some (freshDoc today now)) := by
  simp [checkAndReserveConversion, freshDoc]

lemma slotUsed_freshDoc (today : String) (now : Nat) :
    slotUsed today (some (freshDoc today now)) :=
  ⟨freshDoc today now, rfl, rfl, rfl, le_refl 1⟩

/-- Claim C1: for a non-special user with no prior quota record, two reserve
calls on the same UTC day yield `(allowed = true, remaining = 0)` and then
`(allowed = false, remaining = 0)` with the daily-limit reason string. -/
theorem c1_single_daily_slot (today : String) (n1 n2 : Nat) :
    (checkAndReserveConversion today n1 none).1.allowed = true ∧
    (checkAndReserveConversion today n1 none).1.remaining = some 0 ∧
    (checkAndReserveConversion today n2
        (checkAndReserveConversion today n1 none).2).1.allowed = false ∧
    (checkAndReserveConversion today n2
        (checkAndReserveConversion today n1 none).2).1.remaining = some 0 ∧
    (checkAndReserveConversion today n2
        (checkAndReserveConversion today n1 none).2).1.reason = some dailyLimitReason := by
  rw [reserve_fresh]
  simp [reserve_denies_of_slotUsed today n2 _ (slotUsed_freshDoc today n1), denyResult]

/-- Claim C2: for a fresh non-special user, any serialization of N ≥ 1
reserve calls on the same UTC day grants exactly one call; the other N − 1
are denied.  (The Firestore transaction makes concurrent calls execute as
one of these serializations.) -/
theorem c2_exactly_one_grant (today : String) (times : List Nat) (h : times ≠ []) :
    ((runReserves today times none).1.countP fun r => r.allowed) = 1 ∧
    ((runReserves today times none).1.countP fun r => !r.allowed) = times.length - 1 := by
  match times, h with
  | t :: ts, _ =>
    simp [runReserves, reserve_fresh,
      runReserves_of_slotUsed today ts _ (slotUsed_freshDoc today t),
      List.countP_map, denyResult, Function.comp]
    exact countP_replicate_true _ _ rfl ts.length

/-- Witness for C2 at a concrete serialization of three calls. -/
theorem c2_exactly_one_grant_witness :
    ((runReserves "2024-03-05" [10, 11, 12] none).1.countP fun r => r.allowed) = 1 ∧
    ((runReserves "2024-03-05" [10, 11, 12] none).1.countP fun r => !r.allowed) =
      [10, 11, 12].length - 1 :=
  c2_exactly_one_grant "2024-03-05" [10, 11, 12] (by decide)

/-- Claim C3: when a non-special user has already used today's slot, reserve
denies with the daily-limit reason and remaining 0, and the stored document
is completely unchanged (the deny branch performs no write). -/
theorem c3_deny_leaves_record_unchanged (today : String) (now : Nat) (u : UserDoc)
    (hs : u.isSpecial = false) (hd : u.lastConversionDate = some today)
    (hc : 1 ≤ u.conversionsToday) :
    checkAndReserveConversion today now (some u) =
      ({ allowed := false, reason := some dailyLimitReason, remaining := some 0 }, some u) := by
  simpa [denyResult] using
    reserve_denies_of_slotUsed today now (some u) ⟨u, rfl, hs, hd, hc⟩

/-- Witness for C3 at a concrete document. -/
theorem c3_deny_leaves_record_unchanged_witness :
    checkAndReserveConversion "2024-03-05" 7
        (some { isSpecial := false, lastConversionDate := some "2024-03-05",
                conversionsToday := 1, lastConversion := some 3, updatedAt := some 3 }) =
      ({ allowed := false, reason := some dailyLimitReason, remaining := some 0 },
        some { isSpecial := false, lastConversionDate := some "2024-03-05",
               conversionsToday := 1, lastConversion := some 3, updatedAt := some 3 }) :=
  c3_deny_leaves_record_unchanged "2024-03-05" 7 _ rfl rfl (by decide)

/-- Claim C4: a user whose stored document has `isSpecial = true` gets
`(allowed = true, remaining = -1)` from every reserve call, any number of
times, and the document is never mutated. -/
theorem c4_special_exempt (today : String) (times : List Nat) (u : UserDoc)
    (hs : u.isSpecial = true) :
    runReserves today times (some u) = (times.map fun _ => specialResult, some u) := by
  induction times with
  | nil => simp [runReserves]
  | cons t ts ih =>
    simp [runReserves, checkAndReserveConversion, hs, specialResult, ih]

/-- Witness for C4: five calls for a concrete special user. -/
theorem c4_special_exempt_witness :
    runReserves "2024-03-05" [1, 2, 3, 4, 5]
        (some { isSpecial := true, lastConversionDate := some "2024-03-01",
                conversionsToday := 1, lastConversion := some 0, updatedAt := some 0 }) =
      ([specialResult, specialResult, specialResult, specialResult, specialResult],
        some { isSpecial := true, lastConversionDate := some "2024-03-01",
               conversionsToday := 1, lastConversion := some 0, updatedAt := some 0 }) :=
  c4_special_exempt "2024-03-05" [1, 2, 3, 4, 5] _ rfl

/-- Claim C5: a non-special user who reserved on day `d` (counter 1) and
calls reserve on a different day `d'` is granted, and the document is
rewritten with `lastConversionDate = d'` and `conversionsToday = 1` exactly
(reset, not incremented). -/
theorem c5_day_rollover (d d' : String) (now : Nat) (u : UserDoc)
    (hs : u.isSpecial = false) (hd : u.lastConversionDate = some d)
    (hc : u.conversionsToday = 1) (hne : d' ≠ d) :
    checkAndReserveConversion d' now (some u) =
      ({ allowed := true, reason := none, remaining := some 0 },
        some { u with
                 lastConversionDate := some d', conversionsToday := 1,
                 lastConversion := some now, updatedAt := some now }) := by
  simp [checkAndReserveConversion, hs, hd, Ne.symm hne]

/-- Witness for C5 at concrete days. -/
theorem c5_day_rollover_witness :
    checkAndReserveConversion "2024-03-06" 9
        (some { isSpecial := false, lastConversionDate := some "2024-03-05",
                conversionsToday := 1, lastConversion := some 3, updatedAt := some 3 }) =
      ({ allowed := true, reason := none, remaining := some 0 },
        some { isSpecial := false, lastConversionDate := some "2024-03-06",
               conversionsToday := 1, lastConversion := some 9, updatedAt := some 9 }) := by
  simpa using c5_day_rollover "2024-03-05" "2024-03-06" 9
    { isSpecial := false, lastConversionDate := some "2024-03-05",
      conversionsToday := 1, lastConversion := some 3, updatedAt := some 3 }
    rfl rfl rfl (by decide)

/-- Claim C6: when every render reports at least two pages (never fits), the
loop performs exactly `MAX_PAGE_ITERATIONS = 3` generate and render calls,
then returns the third attempt's markup, document and page count, with the
hint sequence none, moderate, aggressive. -/
theorem c6_never_fits_three_attempts (gen : Nat → Option String → String)
    (pdfOf : Nat → String → PdfDoc)
    (hbig : ∀ i m, 2 ≤ (pdfOf i m).numpages) :
    fitLoopRun gen (fun i m => Except.ok (pdfOf i m)) =
      { result := Except.ok
          { latexCode := gen 2 (some shortenHintAggressive),
            pdf := pdfOf 2 (gen 2 (some shortenHintAggressive)),
            pageCount := (pdfOf 2 (gen 2 (some shortenHintAggressive))).numpages },
        genCalls := 3, renderCalls := 3,
        hints := [none, some shortenHintModerate, some shortenHintAggressive] } := by
  have h0 : 1 < (pdfOf 0 (gen 0 none)).numpages := by
    have := hbig 0 (gen 0 none); omega
  have h1 : ¬ (pdfOf 1 (gen 1 (some shortenHintModerate))).numpages ≤ 1 := by
    have := hbig 1 (gen 1 (some shortenHintModerate)); omega
  have h2 : ¬ (pdfOf 2 (gen 2 (some shortenHintAggressive))).numpages ≤ 1 := by
    have := hbig 2 (gen 2 (some shortenHintAggressive)); omega
  simp [fitLoopRun, fitLoopGo, MAX_PAGE_ITERATIONS, getPdfPageCount, shortenHintFor,
    h0, h1, h2]

/-- Witness for C6 with a render stub that always reports two pages. -/
theorem c6_never_fits_three_attempts_witness :
    fitLoopRun (fun _ _ => "m") (fun _ _ => Except.ok { numpages := 2, bytes := "p" }) =
      { result := Except.ok
          { latexCode := "m", pdf := { numpages := 2, bytes := "p" }, pageCount := 2 },
        genCalls := 3, renderCalls := 3,
        hints := [none, some shortenHintModerate, some shortenHintAggressive] } :=
  c6_never_fits_three_attempts (fun _ _ => "m") (fun _ _ => { numpages := 2, bytes := "p" })
    (fun _ _ => le_refl 2)

/-- Claim C7: when the first render reports at most one page, the loop makes
exactly one generate and one render call, passes no shorten hint, and
returns the first attempt's result. -/
theorem c7_first_fit_single_call (gen : Nat → Option String → String)
    (render : Nat → String → Except String PdfDoc) (pdf : PdfDoc)
    (hok : render 0 (gen 0 none) = Except.ok pdf) (hfit : pdf.numpages ≤ 1) :
    fitLoopRun gen render =
      { result := Except.ok
          { latexCode := gen 0 none, pdf := pdf, pageCount := pdf.numpages },
        genCalls := 1, renderCalls := 1, hints := [none] } := by
  simp [fitLoopRun, hok, getPdfPageCount, Nat.not_lt.mpr hfit]

/-- Witness for C7 with a render stub that reports one page at once. -/
theorem c7_first_fit_single_call_witness :
    fitLoopRun (fun _ _ => "m") (fun _ _ => Except.ok { numpages := 1, bytes := "p" }) =
      { result := Except.ok
          { latexCode := "m", pdf := { numpages := 1, bytes := "p" }, pageCount := 1 },
        genCalls := 1, renderCalls := 1, hints := [none] } :=
  c7_first_fit_single_call (fun _ _ => "m")
    (fun _ _ => Except.ok { numpages := 1, bytes := "p" })
    { numpages := 1, bytes := "p" } rfl (by decide)

/-- Counterexample to C9 as stated: with a render fault at the non-terminal
iteration 1 the run aborts with that fault after only two generate/render
calls — the iteration's result is not discarded in favour of a further
attempt, even though the third render would have succeeded with one page. -/
theorem c9_counterexample :
    (fitLoopRun (fun _ _ => "m") c9Render).result = Except.error renderFaultMessage ∧
    (fitLoopRun (fun _ _ => "m") c9Render).genCalls = 2 ∧
    (fitLoopRun (fun _ _ => "m") c9Render).renderCalls = 2 ∧
    c9Render 2 "m" = Except.ok { numpages := 1, bytes := "p2" } :=
  ⟨rfl, rfl, rfl, rfl⟩

/-- Claim C9 amended: a render fault in any iteration `k` (terminal or not)
of the fit-seeking loop aborts the run at once — the error propagates after
exactly `k + 1` generate/render calls and no further iteration is attempted;
the `POST` handler's catch turns it into a 500 response. -/
theorem c9_amended_render_fault_aborts (gen : Nat → Option String → String)
    (render : Nat → String → Except String PdfDoc) (e : String) (k : Nat)
    (hk : k < MAX_PAGE_ITERATIONS)
    (hprev : ∀ i, i < k → ∃ pdf, render i (gen i (hintAt i)) = Except.ok pdf ∧
      2 ≤ pdf.numpages)
    (hfault : render k (gen k (hintAt k)) = Except.error e) :
    (fitLoopRun gen render).result = Except.error e ∧
    (fitLoopRun gen render).genCalls = k + 1 ∧
    (fitLoopRun gen render).renderCalls = k + 1 := by
  have hM : MAX_PAGE_ITERATIONS = 3 := rfl
  rw [hM] at hk
  interval_cases k
  · simp [hintAt] at hfault
    simp [fitLoopRun, hfault]
  · obtain ⟨pdf0, hr0, hp0⟩ := hprev 0 (by omega)
    simp [hintAt] at hr0
    simp [hintAt, shortenHintFor] at hfault
    have h0 : 1 < pdf0.numpages := by omega
    simp [fitLoopRun, fitLoopGo, MAX_PAGE_ITERATIONS, getPdfPageCount, shortenHintFor,
      hr0, hfault, h0]
  · obtain ⟨pdf0, hr0, hp0⟩ := hprev 0 (by omega)
    obtain ⟨pdf1, hr1, hp1⟩ := hprev 1 (by omega)
    simp [hintAt] at hr0
    simp [hintAt, shortenHintFor] at hr1
    simp [hintAt, shortenHintFor] at hfault
    have h0 : 1 < pdf0.numpages := by omega
    have h1 : ¬ pdf1.numpages ≤ 1 := by omega
    simp [fitLoopRun, fitLoopGo, MAX_PAGE_ITERATIONS, getPdfPageCount, shortenHintFor,
      hr0, hr1, hfault, h0, h1]

/-- Witness for the amended C9: fault at the terminal iteration 2. -/
theorem c9_amended_render_fault_aborts_witness :
    (fitLoopRun (fun _ _ => "m")
        (fun i _ => if i < 2 then Except.ok { numpages := 2, bytes := "p" }
                    else Except.error renderFaultMessage)).result =
      Except.error renderFaultMessage ∧
    (fitLoopRun (fun _ _ => "m")
        (fun i _ => if i < 2 then Except.ok { numpages := 2, bytes := "p" }
                    else Except.error renderFaultMessage)).genCalls = 2 + 1 ∧
    (fitLoopRun (fun _ _ => "m")
        (fun i _ => if i < 2 then Except.ok { numpages := 2, bytes := "p" }
                    else Except.error renderFaultMessage)).renderCalls = 2 + 1 :=
  c9_amended_render_fault_aborts (fun _ _ => "m")
    (fun i _ => if i < 2 then Except.ok { numpages := 2, bytes := "p" }
                else Except.error renderFaultMessage)
    renderFaultMessage 2 (by decide)
    (fun i hi => ⟨{ numpages := 2, bytes := "p" }, by
      interval_cases i <;> simp, by decide⟩)
    (by simp)

/-- Claim C8: (1) classified rate-limit errors on the first two attempts and
success on the third give exactly the two backoff delays 2000 ms and 4000 ms
before the successful result; (2) a non-rate-limit error at any attempt
(after only rate-limited failures) propagates at once: no delay is added for
it and no further attempt is made. -/
theorem c8_llm_retry_policy :
    (∀ (invoke : Nat → Except JsError String) (e0 e1 : JsError) (r : String),
      invoke 0 = Except.error e0 → invoke 1 = Except.error e1 →
      invoke 2 = Except.ok r →
      isRateLimitError e0 = true → isRateLimitError e1 = true →
      llmRetry invoke =
        { result := Except.ok r, attempts := 3, delays := [2000, 4000] }) ∧
    (∀ (invoke : Nat → Except JsError String) (k : Nat) (e : JsError),
      k < MAX_LLM_RETRIES →
      (∀ i, i < k → ∃ ei, invoke i = Except.error ei ∧ isRateLimitError ei = true) →
      invoke k = Except.error e → isRateLimitError e = false →
      llmRetry invoke =
        { result := Except.error e, attempts := k + 1,
          delays := (List.range k).map backoffAt }) := by
  constructor
  · intro invoke e0 e1 r h0 h1 h2 hrl0 hrl1
    simp [llmRetry, llmRetryGo, MAX_LLM_RETRIES, h0, h1, h2, hrl0, hrl1,
      backoffAt, BACKOFF_MS]
  · intro invoke k e hk hprev hke hrl
    have hM : MAX_LLM_RETRIES = 3 := rfl
    rw [hM] at hk
    interval_cases k
    · simp [llmRetry, llmRetryGo, MAX_LLM_RETRIES, hke, hrl]
    · obtain ⟨e0, h0, hrl0⟩ := hprev 0 (by omega)
      simp [llmRetry, llmRetryGo, MAX_LLM_RETRIES, h0, hrl0, hke, hrl,
        List.range_succ, backoffAt, BACKOFF_MS]
    · obtain ⟨e0, h0, hrl0⟩ := hprev 0 (by omega)
      obtain ⟨e1, h1, hrl1⟩ := hprev 1 (by omega)
      simp [llmRetry, llmRetryGo, MAX_LLM_RETRIES, h0, hrl0, h1, hrl1, hke, hrl,
        List.range_succ, backoffAt, BACKOFF_MS]

/-- Witness for C8 at two concrete invoke stubs. -/
theorem c8_llm_retry_policy_witness :
    llmRetry (fun i => if i < 2 then Except.error rlStubError else Except.ok "latex") =
      { result := Except.ok "latex", attempts := 3, delays := [2000, 4000] } ∧
    llmRetry (fun _ => Except.error fatalStubError) =
      { result := Except.error fatalStubError, attempts := 0 + 1,
        delays := (List.range 0).map backoffAt } :=
  ⟨c8_llm_retry_policy.1 (fun i => if i < 2 then Except.error rlStubError else Except.ok "latex")
      rlStubError rlStubError "latex" rfl rfl rfl (by decide) (by decide),
   c8_llm_retry_policy.2 (fun _ => Except.error fatalStubError) 0 fatalStubError
      (by decide) (fun i hi => absurd hi (Nat.not_lt_zero i)) rfl (by decide)⟩

lemma reserve_grants_of_available (today : String) (now : Nat) (db : Option UserDoc)
    (h : quotaAvailable today db) :
    (checkAndReserveConversion today now db).1.allowed = true ∧
    slotUsed today (checkAndReserveConversion today now db).2 := by
  obtain ⟨hs, hlim⟩ := h
  match db with
  | none =>
    rw [reserve_fresh]
    exact ⟨rfl, slotUsed_freshDoc today now⟩
  | some u =>
    have hs' : u.isSpecial = false := by simpa using hs
    by_cases hd : u.lastConversionDate = some today
    · have hc : u.conversionsToday = 0 := by
        rcases Nat.eq_zero_or_pos u.conversionsToday with h0 | h1
        · exact h0
        · exact absurd ⟨by simpa using hd, by simpa using h1⟩ hlim
      constructor
      · simp [checkAndReserveConversion, hs', hd, hc]
      · refine ⟨{ u with conversionsToday := 0 + 1, lastConversion := some now },
          ?_, by simpa using hs', by simpa using hd, by simp⟩
        simp [checkAndReserveConversion, hs', hd, hc]
    · constructor
      · simp [checkAndReserveConversion, hs', hd]
      · refine ⟨{ u with
                    lastConversionDate := some today, conversionsToday := 1,
                    lastConversion := some now, updatedAt := some now },
          ?_, by simpa using hs', rfl, by simp⟩
        simp [checkAndReserveConversion, hs', hd]

/-- Claim C10: for a request whose userId is valid and whose user still has
today's slot, but whose job description (or resume input) is missing, the
handler reserves before validating: the request is rejected with a 400
outcome while the slot is consumed, so an immediately following well-formed
request by the same user on the same UTC day is denied with the daily-limit
reason and no state change. -/
theorem c10_reserve_precedes_validation (req1 req2 : TailorRequest) (today : String)
    (n1 n2 : Nat) (db : Option UserDoc)
    (hu1 : ¬ req1.userId = "") (hu2 : ¬ req2.userId = "")
    (hmiss : req1.jobDescription = "" ∨
      (req1.resumeTextInput = "" ∧ req1.hasFile = false))
    (havail : quotaAvailable today db) :
    ((postQuotaAndValidation req1 today n1 db).1 = PostOutcome.missingJobDescription ∨
     (postQuotaAndValidation req1 today n1 db).1 = PostOutcome.missingResume) ∧
    (postQuotaAndValidation req2 today n2 (postQuotaAndValidation req1 today n1 db).2).1 =
      PostOutcome.rateLimited dailyLimitReason ∧
    (postQuotaAndValidation req2 today n2 (postQuotaAndValidation req1 today n1 db).2).2 =
      (postQuotaAndValidation req1 today n1 db).2 := by
  obtain ⟨hallow, hused⟩ := reserve_grants_of_available today n1 db havail
  have hstate : (postQuotaAndValidation req1 today n1 db).2 =
      (checkAndReserveConversion today n1 db).2 := by
    by_cases hjd : req1.jobDescription = ""
    · simp [postQuotaAndValidation, hu1, hjd, hallow]
    · obtain hjd' | ⟨hrt, hnf⟩ := hmiss
      · exact absurd hjd' hjd
      · simp [postQuotaAndValidation, hu1, hjd, hrt, hnf, hallow]
  have houtcome : (postQuotaAndValidation req1 today n1 db).1 =
        PostOutcome.missingJobDescription ∨
      (postQuotaAndValidation req1 today n1 db).1 = PostOutcome.missingResume := by
    by_cases hjd : req1.jobDescription = ""
    · left; simp [postQuotaAndValidation, hu1, hjd, hallow]
    · obtain hjd' | ⟨hrt, hnf⟩ := hmiss
      · exact absurd hjd' hjd
      · right; simp [postQuotaAndValidation, hu1, hjd, hrt, hnf, hallow]
  refine ⟨houtcome, ?_, ?_⟩
  · rw [hstate]
    have hdeny := reserve_denies_of_slotUsed today n2 _ hused
    simp [postQuotaAndValidation, hu2, hdeny, denyResult, dailyLimitReason]
  · rw [hstate]
    have hdeny := reserve_denies_of_slotUsed today n2 _ hused
    simp [postQuotaAndValidation, hu2, hdeny, denyResult]

/-- Witness for C10: a fresh user sends a request with a valid userId and a
resume but no job description, then a well-formed request the same day. -/
theorem c10_reserve_precedes_validation_witness :
    ((postQuotaAndValidation
        { userId := "user-1", resumeTextInput := "resume", jobDescription := "",
          hasFile := false, fileText := "" } "2024-03-05" 1 none).1 =
        PostOutcome.missingJobDescription ∨
     (postQuotaAndValidation
        { userId := "user-1", resumeTextInput := "resume", jobDescription := "",
          hasFile := false, fileText := "" } "2024-03-05" 1 none).1 =
        PostOutcome.missingResume) ∧
    (postQuotaAndValidation
        { userId := "user-1", resumeTextInput := "resume", jobDescription := "job",
          hasFile := false, fileText := "" } "2024-03-05" 2
        (postQuotaAndValidation
          { userId := "user-1", resumeTextInput := "resume", jobDescription := "",
            hasFile := false, fileText := "" } "2024-03-05" 1 none).2).1 =
      PostOutcome.rateLimited dailyLimitReason ∧
    (postQuotaAndValidation
        { userId := "user-1", resumeTextInput := "resume", jobDescription := "job",
          hasFile := false, fileText := "" } "2024-03-05" 2
        (postQuotaAndValidation
          { userId := "user-1", resumeTextInput := "resume", jobDescription := "",
            hasFile := false, fileText := "" } "2024-03-05" 1 none).2).2 =
      (postQuotaAndValidation
        { userId := "user-1", resumeTextInput := "resume", jobDescription := "",
          hasFile := false, fileText := "" } "2024-03-05" 1 none).2 :=
  c10_reserve_precedes_validation
    { userId := "user-1", resumeTextInput := "resume", jobDescription := "",
      hasFile := false, fileText := "" }
    { userId := "user-1", resumeTextInput := "resume", jobDescription := "job",
      hasFile := false, fileText := "" }
    "2024-03-05" 1 2 none (by decide) (by decide) (Or.inl (by decide))
    (by constructor <;> simp)
